import Mathlib

/-!
Shallow embedding of the chat core of the whisper-api repository
(Django REST views, DRF serializers and Channels consumers), together with
proofs checking the natural-language specification against it.

Conventions of the embedding:
- database tables are Lean lists of records, queried in list order;
- machine ids are natural numbers; timestamps are integers (hours for the
  device-freshness policy, abstract ticks for message creation);
- nullable text columns and optional JSON fields are `Option String`, and
  Python string falsiness (`None` and `""` are both falsy) is `strBlank`;
- fallible handlers return explicit result types mirroring the HTTP
  status codes and the consumer's `None` returns.
-/

namespace WhisperApi

abbrev UserId := Nat
abbrev RoomId := Nat
abbrev MsgId := Nat
abbrev DeviceId := Nat
abbrev InvId := Nat
abbrev MemberId := Nat
abbrev ChannelName := String

/-- Room types, from `ChatRoom.ROOM_TYPE_CHOICES` in chat/models.py. -/
inductive RoomType
  | direct
  | group
  deriving DecidableEq, Repr

/-- Member roles, from `ChatRoomMember.ROLE_CHOICES` in chat/models.py. -/
inductive Role
  | owner
  | admin
  | member
  deriving DecidableEq, Repr

/-- Invitation statuses, from the `STATUS_CHOICES` of the invitation models. -/
inductive InvStatus
  | pending
  | accepted
  | rejected
  | cancelled
  deriving DecidableEq, Repr

/-- Message types, from `Message.MESSAGE_TYPE_CHOICES` in chat/models.py. -/
inductive MsgType
  | text
  | image
  | file
  | system
  deriving DecidableEq, Repr

/-- Python falsiness of an optional string field: `None` and `""` are falsy. -/
def strBlank : Option String → Bool
  | none => true
  | some s => s = ""

/-- Row of `chat_rooms` (chat/models.py, `ChatRoom`), fields the handlers read. -/
structure Room where
  id : RoomId
  room_type : RoomType
  deriving DecidableEq, Repr

/-- Row of `chat_room_members` (chat/models.py, `ChatRoomMember`). -/
structure RoomMember where
  id : MemberId
  room : RoomId
  user : UserId
  role : Role
  deriving DecidableEq, Repr

/-- Row of `messages` (chat/models.py, `Message`).  `content` is an
`Option String` because the websocket consumer stores `None` for an empty
content string. -/
structure Msg where
  id : MsgId
  room : RoomId
  sender : Option UserId
  message_type : MsgType
  content : Option String
  encrypted_content : Option String
  encrypted_session_key : Option String
  self_encrypted_session_key : Option String
  reply_to : Option MsgId
  is_read : Bool
  created_at : Nat
  deriving DecidableEq, Repr

/-- Row of `direct_chat_invitations`, from the schema declared by
chat/migrations/0005_directchatinvitation.py. -/
structure DirectInv where
  id : InvId
  inviter : UserId
  invitee : UserId
  status : InvStatus
  room : Option RoomId
  deriving DecidableEq, Repr

/-- Row of `group_chat_invitations` (chat/models.py, `GroupChatInvitation`). -/
structure GroupInv where
  id : InvId
  room : RoomId
  inviter : UserId
  invitee : UserId
  status : InvStatus
  deriving DecidableEq, Repr

/-- Row of `user_devices`, from the schema declared by
accounts/migrations/0002_userdevice.py.  `last_active` is in hours. -/
structure Device where
  id : DeviceId
  user : UserId
  device_name : String
  device_fingerprint : String
  encrypted_private_key : String
  is_primary : Bool
  last_active : Int
  deriving DecidableEq, Repr

/-- The fields of `accounts.models.User` the direct-chat handlers read. -/
structure UserRec where
  id : UserId
  public_key : Option String
  deriving DecidableEq, Repr

/-- Accepted friend rows (`friends.models.Friend` with status accepted),
kept as (requester, receiver) pairs: the only thing the group-invite
handler asks of them is the symmetric accepted-friendship test. -/
abbrev FriendPair := UserId × UserId

/-- Database state touched by the chat handlers.  The `next*` counters
stand for the fresh primary keys the ORM would generate. -/
structure ChatState where
  rooms : List Room
  members : List RoomMember
  messages : List Msg
  directInvs : List DirectInv
  groupInvs : List GroupInv
  friends : List FriendPair
  nextRoomId : RoomId
  nextMsgId : MsgId
  nextInvId : InvId
  nextMemberId : MemberId
  deriving DecidableEq, Repr

/-- Membership test, `ChatRoomMember.objects.filter(room=room, user=user).exists()`. -/
def isMember (s : ChatState) (roomId : RoomId) (userId : UserId) : Bool :=
  s.members.any (fun m => decide (m.room = roomId ∧ m.user = userId))

/-- Member count of a room, the `member_count` annotation / property. -/
def memberCount (s : ChatState) (roomId : RoomId) : Nat :=
  (s.members.filter (fun m => decide (m.room = roomId))).length

/-- Room lookup used by `get_room_or_404` and the consumer. -/
def findRoom (s : ChatState) (roomId : RoomId) : Option Room :=
  s.rooms.find? (fun r => decide (r.id = roomId))

/-- Membership-row lookup, `ChatRoomMember.objects.filter(room=room, user=user).first()`. -/
def findMember (s : ChatState) (roomId : RoomId) (userId : UserId) : Option RoomMember :=
  s.members.find? (fun m => decide (m.room = roomId ∧ m.user = userId))

/-- Lookup of a message inside a given room, `Message.objects.get(id=..., room=room)`. -/
def findRoomMessage (s : ChatState) (roomId : RoomId) (msgId : MsgId) : Option Msg :=
  s.messages.find? (fun m => decide (m.id = msgId ∧ m.room = roomId))

/-- Validation / error outcomes of the message-creation serializer and views. -/
inductive ValErr
  | encryptedContentRequired
  | encryptedContentForbidden
  | sessionKeyForbidden
  | selfSessionKeyForbidden
  | contentRequired
  | roomMissing
  | notAMember
  | replyNotFound
  deriving DecidableEq, Repr

/-- Incoming payload of a message-creation request
(`MessageCreateSerializer` fields in chat/serializers.py). -/
structure MsgAttrs where
  message_type : MsgType
  content : Option String
  encrypted_content : Option String
  encrypted_session_key : Option String
  self_encrypted_session_key : Option String
  reply_to_id : Option MsgId
  deriving DecidableEq, Repr

/-- The `validate` method of `MessageCreateSerializer`
(chat/serializers.py lines 235-278).  The room is read from the serializer
context; when the context has no room the method returns the attributes
unchanged and leaves all checks to `create`. -/
def messageCreateValidate (ctxRoom : Option Room) (a : MsgAttrs) : Except ValErr MsgAttrs :=
  match ctxRoom with
  | none => .ok a
  | some room =>
    if room.room_type = .direct then
      if strBlank a.encrypted_content then .error .encryptedContentRequired
      else if strBlank a.content then .ok { a with content := some "" }
      else .ok a
    else
      if !strBlank a.encrypted_content then .error .encryptedContentForbidden
      else if !strBlank a.encrypted_session_key then .error .sessionKeyForbidden
      else if !strBlank a.self_encrypted_session_key then .error .selfSessionKeyForbidden
      else if strBlank a.content then .error .contentRequired
      else .ok a

/-- The `create` method of `MessageCreateSerializer`
(chat/serializers.py lines 280-304).  The room again comes from the
serializer context; a missing room, a non-member sender, and a
`reply_to_id` that does not resolve inside the room each raise a
validation error. -/
def messageCreateSave (ctxRoom : Option Room) (s : ChatState) (sender : UserId)
    (a : MsgAttrs) (now : Nat) : Except ValErr (Msg × ChatState) :=
  match ctxRoom with
  | none => .error .roomMissing
  | some room =>
    if !isMember s room.id sender then .error .notAMember
    else
      match a.reply_to_id with
      | some rid =>
        match findRoomMessage s room.id rid with
        | none => .error .replyNotFound
        | some rm =>
          let msg : Msg :=
            { id := s.nextMsgId, room := room.id, sender := some sender,
              message_type := a.message_type, content := a.content,
              encrypted_content := a.encrypted_content,
              encrypted_session_key := a.encrypted_session_key,
              self_encrypted_session_key := a.self_encrypted_session_key,
              reply_to := some rm.id, is_read := false, created_at := now }
          .ok (msg, { s with messages := s.messages ++ [msg], nextMsgId := s.nextMsgId + 1 })
      | none =>
        let msg : Msg :=
          { id := s.nextMsgId, room := room.id, sender := some sender,
            message_type := a.message_type, content := a.content,
            encrypted_content := a.encrypted_content,
            encrypted_session_key := a.encrypted_session_key,
            self_encrypted_session_key := a.self_encrypted_session_key,
            reply_to := none, is_read := false, created_at := now }
        .ok (msg, { s with messages := s.messages ++ [msg], nextMsgId := s.nextMsgId + 1 })

/-- Outcome of the REST send-message endpoint. -/
inductive RestSendResult
  | created (m : Msg)
  | validationError (e : ValErr)
  | forbidden
  | notFoundRoom
  deriving DecidableEq, Repr

/-- The POST handler of `MessageListView` (chat/views.py lines 476-500).
The view resolves the room and checks membership, then builds the
serializer as `MessageCreateSerializer(data=..., context=request-only)`:
the room id travels inside `data` (not a serializer field) while the
serializer context carries no room, so both `validate` and `create` run
with a `none` context room. -/
def messageListPost (s : ChatState) (roomId : RoomId) (requester : UserId)
    (a : MsgAttrs) (now : Nat) : RestSendResult × ChatState :=
  match findRoom s roomId with
  | none => (.notFoundRoom, s)
  | some _room =>
    if !isMember s roomId requester then (.forbidden, s)
    else
      match messageCreateValidate none a with
      | .error e => (.validationError e, s)
      | .ok a2 =>
        match messageCreateSave none s requester a2 now with
        | .error e => (.validationError e, s)
        | .ok (m, s2) => (.created m, s2)

/-- The `create_message` database helper of `ChatConsumer`
(chat/consumers.py lines 441-519).  A `None` return makes the consumer
emit a generic error event; note that an unresolvable `reply_to_id` is
swallowed (`except Message.DoesNotExist: pass`) and that no check guards
an empty group content (it is stored as `None`). -/
def consumerCreateMessage (s : ChatState) (roomId : RoomId) (user : UserId)
    (msgType : MsgType) (content : String)
    (encrypted_content encrypted_session_key self_encrypted_session_key : Option String)
    (reply_to_id : Option MsgId) (now : Nat) : Option (Msg × ChatState) :=
  match findRoom s roomId with
  | none => none
  | some room =>
    if room.room_type = .direct ∧ strBlank encrypted_content ∧ msgType = .text then none
    else if room.room_type = .group ∧ ¬strBlank encrypted_content then none
    else if room.room_type = .group ∧ ¬strBlank encrypted_session_key then none
    else if room.room_type = .group ∧ ¬strBlank self_encrypted_session_key then none
    else
      let replyTo : Option MsgId :=
        match reply_to_id with
        | some rid => (findRoomMessage s roomId rid).map Msg.id
        | none => none
      let msg : Msg :=
        { id := s.nextMsgId, room := roomId, sender := some user,
          message_type := msgType,
          content := if content = "" then none else some content,
          encrypted_content := encrypted_content,
          encrypted_session_key := encrypted_session_key,
          self_encrypted_session_key := self_encrypted_session_key,
          reply_to := replyTo, is_read := false, created_at := now }
      some (msg, { s with messages := s.messages ++ [msg], nextMsgId := s.nextMsgId + 1 })

/-- Outcome of the direct-chat-create endpoint. -/
inductive DirectCreateResult
  | badRequest (reason : String)
  | existingRoom (r : Room)
  | existingInvitation (i : DirectInv)
  | invitationCreated (i : DirectInv)
  | accepted (r : Room)
  deriving DecidableEq, Repr

/-- The existing-room query of `DirectChatCreateView.post`
(chat/views.py lines 168-177): a direct room containing both users whose
member count is exactly 2. -/
def existingDirectRoom (s : ChatState) (a b : UserId) : Option Room :=
  s.rooms.find? (fun r =>
    decide (r.room_type = .direct) && isMember s r.id a && isMember s r.id b
      && decide (memberCount s r.id = 2))

/-- The pending-invitation query of `DirectChatCreateView.post`
(chat/views.py lines 188-191): pending invitations between the pair in
either direction, first match. -/
def pendingBetween (s : ChatState) (a b : UserId) : Option DirectInv :=
  s.directInvs.find? (fun i =>
    decide (i.status = .pending ∧
      ((i.inviter = a ∧ i.invitee = b) ∨ (i.inviter = b ∧ i.invitee = a))))

/-- The `_accept_invitation` helper of `DirectChatCreateView`
(chat/views.py lines 221-243): inside the transaction it creates the
direct room, both memberships with role member, and marks the invitation
accepted pointing at the new room. -/
def acceptDirectInvitation (s : ChatState) (inv : DirectInv) : Room × ChatState :=
  let room : Room := { id := s.nextRoomId, room_type := .direct }
  let m1 : RoomMember :=
    { id := s.nextMemberId, room := room.id, user := inv.inviter, role := .member }
  let m2 : RoomMember :=
    { id := s.nextMemberId + 1, room := room.id, user := inv.invitee, role := .member }
  let invs := s.directInvs.map (fun i =>
    if i.id = inv.id then { i with status := .accepted, room := some room.id } else i)
  (room,
    { s with
      rooms := s.rooms ++ [room], members := s.members ++ [m1, m2],
      directInvs := invs, nextRoomId := s.nextRoomId + 1,
      nextMemberId := s.nextMemberId + 2 })

/-- The POST handler of `DirectChatCreateView` (chat/views.py lines
142-219).  The two user records stand for `request.user` and the resolved
target user. -/
def directChatCreate (s : ChatState) (user other : UserRec) : DirectCreateResult × ChatState :=
  if other.id = user.id then (.badRequest "self chat", s)
  else
    match existingDirectRoom s user.id other.id with
    | some r => (.existingRoom r, s)
    | none =>
      match pendingBetween s user.id other.id with
      | some inv =>
        if inv.inviter = user.id then (.existingInvitation inv, s)
        else
          let (room, s2) := acceptDirectInvitation s inv
          (.accepted room, s2)
      | none =>
        if strBlank other.public_key then (.badRequest "no public key", s)
        else
          let inv : DirectInv :=
            { id := s.nextInvId, inviter := user.id,
              invitee := other.id, status := .pending, room := none }
          (.invitationCreated inv,
            { s with directInvs := s.directInvs ++ [inv], nextInvId := s.nextInvId + 1 })

/-- Outcome of the group-invite endpoint. -/
inductive GroupInviteResult
  | notFoundRoom
  | notFoundUser
  | badRequest (reason : String)
  | forbidden
  | created (i : GroupInv)
  | saveRejected
  deriving DecidableEq, Repr

/-- The save path of `GroupChatInvitation` (chat/models.py lines
176-188): `save` calls `full_clean`, which checks `clean` (group room,
invitee not already a member) and the declared uniqueness
`unique_together = [[room, invitee]]` against the existing rows,
raising on any violation. -/
def groupInvSave (s : ChatState) (inv : GroupInv) : Except Unit ChatState :=
  match findRoom s inv.room with
  | none => .error ()
  | some room =>
    if room.room_type ≠ .group then .error ()
    else if isMember s inv.room inv.invitee then .error ()
    else if s.groupInvs.any (fun i => decide (i.room = inv.room ∧ i.invitee = inv.invitee)) then
      .error ()
    else .ok { s with groupInvs := s.groupInvs ++ [inv], nextInvId := s.nextInvId + 1 }

/-- The accepted-friendship test of `GroupChatInvitationView.post`
(chat/views.py lines 1216-1220). -/
def isFriend (s : ChatState) (a b : UserId) : Bool :=
  s.friends.any (fun p => decide ((p.1 = a ∧ p.2 = b) ∨ (p.1 = b ∧ p.2 = a)))

/-- The POST handler of `GroupChatInvitationView` (chat/views.py lines
1165-1257).  `inviteeExists` mirrors the `User.objects.get` lookup.  The
final `GroupChatInvitation.objects.create` goes through the model save
(`groupInvSave`); a rejection there escapes the view uncaught. -/
def groupChatInvitationPost (s : ChatState) (roomId : RoomId) (requester : UserId)
    (inviteeId : UserId) (inviteeExists : Bool) : GroupInviteResult × ChatState :=
  match findRoom s roomId with
  | none => (.notFoundRoom, s)
  | some room =>
    if room.room_type ≠ .group then (.badRequest "group only", s)
    else
      match findMember s roomId requester with
      | none => (.forbidden, s)
      | some member =>
        if member.role ≠ .owner ∧ member.role ≠ .admin then (.forbidden, s)
        else if !inviteeExists then (.notFoundUser, s)
        else if inviteeId = requester then (.badRequest "self invite", s)
        else if isMember s roomId inviteeId then (.badRequest "already member", s)
        else if !isFriend s requester inviteeId then (.badRequest "friends only", s)
        else if s.groupInvs.any (fun i =>
            decide (i.room = roomId ∧ i.invitee = inviteeId ∧ i.status = .pending)) then
          (.badRequest "already pending", s)
        else
          let inv : GroupInv :=
            { id := s.nextInvId, room := roomId,
              inviter := requester, invitee := inviteeId, status := .pending }
          match groupInvSave s inv with
          | .error _ => (.saveRejected, s)
          | .ok s2 => (.created inv, s2)

/-- Outcome of the leave-room endpoint. -/
inductive LeaveResult
  | notFoundRoom
  | forbidden
  | roomDeleted
  | lastMemberDeleted
  | leftRoom
  deriving DecidableEq, Repr

/-- Room deletion with the declared cascades (chat/models.py: messages,
memberships and group invitations reference the room with CASCADE). -/
def deleteRoomCascade (s : ChatState) (roomId : RoomId) : ChatState :=
  { s with
    rooms := s.rooms.filter (fun r => !decide (r.id = roomId)),
    members := s.members.filter (fun m => !decide (m.room = roomId)),
    messages := s.messages.filter (fun m => !decide (m.room = roomId)),
    groupInvs := s.groupInvs.filter (fun i => !decide (i.room = roomId)) }

/-- The ownership-transfer step of `ChatRoomLeaveView.post`
(chat/views.py lines 735-753): promote the first other admin, else the
first other member; `none` means no other member remains. -/
def ownerTransferStep (s : ChatState) (roomId : RoomId) (leaver : UserId) :
    Option ChatState :=
  match s.members.find? (fun m =>
      decide (m.room = roomId ∧ m.role = .admin ∧ m.user ≠ leaver)) with
  | some am =>
    some { s with members := s.members.map (fun m =>
      if m.id = am.id then { m with role := .owner } else m) }
  | none =>
    match s.members.find? (fun m => decide (m.room = roomId ∧ m.user ≠ leaver)) with
    | some rm =>
      some { s with members := s.members.map (fun m =>
        if m.id = rm.id then { m with role := .owner } else m) }
    | none => none

/-- Deletion of the leaver's membership row (`member.delete()`). -/
def removeMembershipStep (s : ChatState) (roomId : RoomId) (user : UserId) : ChatState :=
  { s with members := s.members.filter (fun m => !decide (m.room = roomId ∧ m.user = user)) }

/-- The POST handler of `ChatRoomLeaveView` (chat/views.py lines
712-764).  Direct rooms are deleted outright; when a group owner leaves,
the ownership transfer runs before the membership row is removed, and the
room is deleted only when no other member remains. -/
def chatRoomLeave (s : ChatState) (roomId : RoomId) (user : UserId) :
    LeaveResult × ChatState :=
  match findRoom s roomId with
  | none => (.notFoundRoom, s)
  | some room =>
    match findMember s roomId user with
    | none => (.forbidden, s)
    | some member =>
      if room.room_type = .direct then (.roomDeleted, deleteRoomCascade s roomId)
      else
        if member.role = .owner then
          match ownerTransferStep s roomId user with
          | none => (.lastMemberDeleted, deleteRoomCascade s roomId)
          | some s2 => (.leftRoom, removeMembershipStep s2 roomId user)
        else (.leftRoom, removeMembershipStep s roomId user)

/-- Outcome of the private-key-bundle fetch. -/
inductive KeyBundleResult
  | ok (deviceId : DeviceId) (device_name : String) (encrypted_private_key : String)
  | forbidden
  | notFound
  deriving DecidableEq, Repr

/-- The GET handler of `DevicePrivateKeyView` (accounts/views.py lines
813-840): owner-scoped lookup, then the freshness gate — a primary device
is always served, a non-primary one only when `last_active` is within the
last 24 hours.  Times are in hours. -/
def devicePrivateKeyGet (devices : List Device) (requester : UserId)
    (deviceId : DeviceId) (now : Int) : KeyBundleResult :=
  match devices.find? (fun d => decide (d.id = deviceId ∧ d.user = requester)) with
  | none => .notFound
  | some d =>
    if !d.is_primary ∧ d.last_active < now - 24 then .forbidden
    else .ok d.id d.device_name d.encrypted_private_key

/-- Modelled from the spec: the `UserDevice` model class is not under
src (only its migration, admin registration and callers are), so the save
behaviour of the model is taken from the spec, which states that the
first device registered for a user is automatically flagged primary and
that this is the only automatic mechanism that sets `is_primary`. -/
def userDeviceSave (devices : List Device) (d : Device) : Device :=
  if devices.any (fun e => decide (e.user = d.user)) then d
  else { d with is_primary := true }

/-- The device-registration operation: `UserDeviceCreateSerializer`
(accounts/serializers.py lines 492-516, global fingerprint uniqueness in
`validate_device_fingerprint`, then `UserDevice.objects.create` with no
explicit `is_primary`, default false) as invoked by `DeviceListView.post`
(accounts/views.py lines 735-742), the create going through the
spec-modelled save. -/
def deviceRegister (devices : List Device) (user : UserId)
    (fingerprint nameStr keyStr : String) (nextId : DeviceId) (now : Int) :
    Except Unit (Device × List Device) :=
  if devices.any (fun d => decide (d.device_fingerprint = fingerprint)) then .error ()
  else
    let d0 : Device :=
      { id := nextId, user := user, device_name := nameStr,
        device_fingerprint := fingerprint, encrypted_private_key := keyStr,
        is_primary := false, last_active := now }
    let d := userDeviceSave devices d0
    .ok (d, devices ++ [d])

/-- Typing event as published by `ChatConsumer.handle_typing`
(chat/consumers.py lines 241-258): it carries the originating channel
name in `sender_channel`. -/
structure TypingEvent where
  user : UserId
  is_typing : Bool
  sender_channel : ChannelName
  deriving DecidableEq, Repr

/-- Presence event as published on connect/disconnect
(chat/consumers.py lines 117-124 and 130-137): it carries only the user
id and the status string. -/
structure StatusEvent where
  user_id : UserId
  status : String
  deriving DecidableEq, Repr

/-- Build of the typing group event in `handle_typing`. -/
def handleTyping (selfUser : UserId) (selfChannel : ChannelName) (isTyping : Bool) :
    TypingEvent :=
  { user := selfUser, is_typing := isTyping, sender_channel := selfChannel }

/-- The `typing_indicator` group handler (chat/consumers.py lines
361-369): deliver unless the event came from this very channel. -/
def typingIndicatorDeliver (selfChannel : ChannelName) (e : TypingEvent) :
    Option (UserId × Bool) :=
  if e.sender_channel ≠ selfChannel then some (e.user, e.is_typing) else none

/-- The `user_status` group handler (chat/consumers.py lines 393-401):
deliver unless the event carries this connection's own user id. -/
def userStatusDeliver (selfUser : UserId) (e : StatusEvent) :
    Option (UserId × String) :=
  if e.user_id ≠ selfUser then some (e.user_id, e.status) else none

/-- The message fields computed by `MessageSerializer`
(chat/serializers.py lines 39-110) whose values depend on the room type. -/
structure SerializedMessage where
  content : Option String
  encrypted_content : Option String
  encrypted_session_key : Option String
  self_encrypted_session_key : Option String
  deriving DecidableEq, Repr

/-- The `get_content` / `get_encrypted_*` methods of `MessageSerializer`:
a group room serializes the stored content and nulls every encrypted
field; a direct room serializes the stored encrypted fields and coerces a
missing content to the empty string. -/
def serializeMessage (room : Room) (m : Msg) : SerializedMessage :=
  { content :=
      if room.room_type = .group then m.content
      else some (m.content.getD ""),
    encrypted_content :=
      if room.room_type = .direct then m.encrypted_content else none,
    encrypted_session_key :=
      if room.room_type = .direct then m.encrypted_session_key else none,
    self_encrypted_session_key :=
      if room.room_type = .direct then m.self_encrypted_session_key else none }

/-- Concrete database for the C1 scenario: direct room 1 with members
user 1 (A) and user 2 (B) and no messages. -/
def c1State : ChatState :=
  { rooms := [{ id := 1, room_type := .direct }],
    members := [{ id := 1, room := 1, user := 1, role := .member },
      { id := 2, room := 1, user := 2, role := .member }],
    messages := [], directInvs := [], groupInvs := [], friends := [],
    nextRoomId := 2, nextMsgId := 1, nextInvId := 1, nextMemberId := 3 }

/-- The C1 request body: a text message carrying only encrypted content. -/
def c1Attrs : MsgAttrs :=
  { message_type := .text, content := none, encrypted_content := some "c1",
    encrypted_session_key := none, self_encrypted_session_key := none,
    reply_to_id := none }

/-- Concrete devices for the C4 witness: for user 7, a primary device
last active at hour 0, and two non-primary devices last active at hours
77 and 75 (23 and 25 hours before the probe at hour 100). -/
def c4Devices : List Device :=
  [{ id := 1, user := 7, device_name := "laptop", device_fingerprint := "fp1",
     encrypted_private_key := "k1", is_primary := true, last_active := 0 },
   { id := 2, user := 7, device_name := "phone", device_fingerprint := "fp2",
     encrypted_private_key := "k2", is_primary := false, last_active := 77 },
   { id := 3, user := 7, device_name := "tablet", device_fingerprint := "fp3",
     encrypted_private_key := "k3", is_primary := false, last_active := 75 }]

/-- Concrete database for the C3 counterexample: group room 20 whose
members are users 1 and 2. -/
def c3State : ChatState :=
  { rooms := [{ id := 20, room_type := .group }, { id := 21, room_type := .direct }],
    members := [{ id := 1, room := 20, user := 1, role := .owner },
      { id := 2, room := 20, user := 2, role := .member },
      { id := 3, room := 21, user := 1, role := .member },
      { id := 4, room := 21, user := 2, role := .member }],
    messages := [], directInvs := [], groupInvs := [], friends := [],
    nextRoomId := 22, nextMsgId := 1, nextInvId := 1, nextMemberId := 5 }

/-- Fixture for the C3 witness: a direct-room text payload without
encrypted content. -/
def c3DirectAttrs : MsgAttrs :=
  { message_type := .text, content := some "hello", encrypted_content := none,
    encrypted_session_key := none, self_encrypted_session_key := none,
    reply_to_id := none }

/-- Fixture for the C3 witness: a group-room payload carrying an
encrypted field. -/
def c3GroupAttrs : MsgAttrs :=
  { message_type := .text, content := some "hi", encrypted_content := some "x",
    encrypted_session_key := none, self_encrypted_session_key := none,
    reply_to_id := none }

/-- Fixture for the C3 witness: a group-room payload with blank content
and no encrypted fields. -/
def c3EmptyAttrs : MsgAttrs :=
  { message_type := .text, content := none, encrypted_content := none,
    encrypted_session_key := none, self_encrypted_session_key := none,
    reply_to_id := none }

/-- Fixture for the C8 witness: a direct-room payload whose reply target
does not exist. -/
def c8Attrs : MsgAttrs :=
  { message_type := .text, content := none, encrypted_content := some "x",
    encrypted_session_key := none, self_encrypted_session_key := none,
    reply_to_id := some 99 }

/-- Concrete database for the C8 counterexample: direct room 30 with
members 1 and 2 and no messages, so no reply target exists. -/
def c8State : ChatState :=
  { rooms := [{ id := 30, room_type := .direct }],
    members := [{ id := 1, room := 30, user := 1, role := .member },
      { id := 2, room := 30, user := 2, role := .member }],
    messages := [], directInvs := [], groupInvs := [], friends := [],
    nextRoomId := 31, nextMsgId := 5, nextInvId := 1, nextMemberId := 3 }

/-- Concrete database for the C5 failing input: group room 10 owned by
user 1, users 1 and 2 are friends, and one old invitation row for
(room 10, invitee 2) with status rejected; no pending row exists. -/
def c5State : ChatState :=
  { rooms := [{ id := 10, room_type := .group }],
    members := [{ id := 1, room := 10, user := 1, role := .owner }],
    messages := [], directInvs := [],
    groupInvs := [{ id := 5, room := 10, inviter := 1, invitee := 2, status := .rejected }],
    friends := [(1, 2)],
    nextRoomId := 11, nextMsgId := 1, nextInvId := 6, nextMemberId := 2 }

/-- Fixture for the C2 witness: caller A (user 1). -/
def c2UserA : UserRec := { id := 1, public_key := some "pkA" }

/-- Fixture for the C2 witness: target B (user 2). -/
def c2UserB : UserRec := { id := 2, public_key := some "pkB" }

/-- Fixture for the C2 witness: no rooms, one pending direct invitation
from B (user 2) to A (user 1). -/
def c2State : ChatState :=
  { rooms := [], members := [], messages := [],
    directInvs := [{ id := 70, inviter := 2, invitee := 1, status := .pending, room := none }],
    groupInvs := [], friends := [],
    nextRoomId := 100, nextMsgId := 1, nextInvId := 71, nextMemberId := 50 }

/-- Fixture for the C10 witness: a group room. -/
def c10GroupRoom : Room := { id := 40, room_type := .group }

/-- Fixture for the C10 witness: a direct room. -/
def c10DirectRoom : Room := { id := 41, room_type := .direct }

/-- Fixture for the C10 witness: a stored message whose encrypted columns
are all populated and whose content column is null. -/
def c10Msg : Msg :=
  { id := 9, room := 40, sender := some 1, message_type := .text,
    content := none, encrypted_content := some "cipher",
    encrypted_session_key := some "sk", self_encrypted_session_key := some "ssk",
    reply_to := none, is_read := false, created_at := 0 }

/-- Fixture for the C9 witness: direct room 60 (members 1 and 2, one
message), group room 61 (owner 1, admin 2, member 3), group room 62
(owner 1, member 3) and group room 63 (owner 1 alone). -/
def c9State : ChatState :=
  { rooms := [{ id := 60, room_type := .direct }, { id := 61, room_type := .group },
      { id := 62, room_type := .group }, { id := 63, room_type := .group }],
    members := [{ id := 1, room := 60, user := 1, role := .member },
      { id := 2, room := 60, user := 2, role := .member },
      { id := 3, room := 61, user := 1, role := .owner },
      { id := 4, room := 61, user := 2, role := .admin },
      { id := 5, room := 61, user := 3, role := .member },
      { id := 6, room := 62, user := 1, role := .owner },
      { id := 7, room := 62, user := 3, role := .member },
      { id := 8, room := 63, user := 1, role := .owner }],
    messages := [
      { id := 1, room := 60, sender := some 1, message_type := .text,
        content := none, encrypted_content := some "m", encrypted_session_key := none,
        self_encrypted_session_key := none, reply_to := none, is_read := false,
        created_at := 0 }],
    directInvs := [], groupInvs := [], friends := [],
    nextRoomId := 64, nextMsgId := 2, nextInvId := 1, nextMemberId := 9 }

/-- C1: evaluation of the REST send-message endpoint on the scenario
state.  The claim expects the message to be stored with empty content and
encrypted_content c1; the code instead rejects every REST send with the
room validation error, because `MessageCreateSerializer.create` reads the
room from the serializer context while `MessageListView.post` passes the
room id inside the request data and builds the context with the request
only, leaving the context room empty. -/
theorem c1_rest_send_message_fails :
    messageListPost c1State 1 1 c1Attrs 0 =
      (.validationError .roomMissing, c1State) := by
  rfl

/-- C4: for a private-key-bundle fetch by the owning user, a primary
device is always served; a non-primary device is served when
now - last_active is at most 24 hours and refused with forbidden when it
exceeds 24 hours; a device id not owned by the requester yields
not-found. -/
theorem c4_device_key_gate (devices : List Device) (requester : UserId)
    (deviceId : DeviceId) (now : Int) :
    (∀ d, devices.find? (fun e => decide (e.id = deviceId ∧ e.user = requester)) = some d →
      (d.is_primary = true →
        devicePrivateKeyGet devices requester deviceId now =
          .ok d.id d.device_name d.encrypted_private_key) ∧
      (d.is_primary = false → now - d.last_active ≤ 24 →
        devicePrivateKeyGet devices requester deviceId now =
          .ok d.id d.device_name d.encrypted_private_key) ∧
      (d.is_primary = false → 24 < now - d.last_active →
        devicePrivateKeyGet devices requester deviceId now = .forbidden)) ∧
    (devices.find? (fun e => decide (e.id = deviceId ∧ e.user = requester)) = none →
      devicePrivateKeyGet devices requester deviceId now = .notFound) := by
  constructor
  · intro d hfind
    refine ⟨fun hp => ?_, fun hp hfresh => ?_, fun hp hstale => ?_⟩
    · unfold devicePrivateKeyGet
      rw [hfind]
      simp [hp]
    · unfold devicePrivateKeyGet
      rw [hfind]
      have h24 : ¬ d.last_active < now - 24 := by omega
      simp [hp, h24]
    · unfold devicePrivateKeyGet
      rw [hfind]
      have h24 : d.last_active < now - 24 := by omega
      simp [hp, h24]
  · intro hnone
    unfold devicePrivateKeyGet
    rw [hnone]

/-- C4 witness: on the concrete device list, the 23-hour-old non-primary
device is served, the 25-hour-old one is refused, the primary one is
served long after its last activity, and an unknown id is not found. -/
theorem c4_device_key_gate_witness :
    devicePrivateKeyGet c4Devices 7 2 100 = .ok 2 "phone" "k2" ∧
    devicePrivateKeyGet c4Devices 7 3 100 = .forbidden ∧
    devicePrivateKeyGet c4Devices 7 1 500 = .ok 1 "laptop" "k1" ∧
    devicePrivateKeyGet c4Devices 7 9 100 = .notFound := by
  refine ⟨?_, ?_, ?_, ?_⟩
  · exact ((c4_device_key_gate c4Devices 7 2 100).1
      { id := 2, user := 7, device_name := "phone", device_fingerprint := "fp2",
        encrypted_private_key := "k2", is_primary := false, last_active := 77 }
      (by rfl)).2.1 rfl (by decide)
  · exact ((c4_device_key_gate c4Devices 7 3 100).1
      { id := 3, user := 7, device_name := "tablet", device_fingerprint := "fp3",
        encrypted_private_key := "k3", is_primary := false, last_active := 75 }
      (by rfl)).2.2 rfl (by decide)
  · exact ((c4_device_key_gate c4Devices 7 1 500).1
      { id := 1, user := 7, device_name := "laptop", device_fingerprint := "fp1",
        encrypted_private_key := "k1", is_primary := true, last_active := 0 }
      (by rfl)).1 rfl
  · exact (c4_device_key_gate c4Devices 7 9 100).2 (by rfl)

/-- C5: evaluation of the group-invite endpoint at the failing input:
although no pending row exists and the view-level duplicate check passes,
the model save path rejects the new row because the declared uniqueness
on (room, invitee) also matches the old rejected row, so no new pending
invitation is created and the state is unchanged. -/
theorem c5_reinvite_after_rejection_blocked :
    groupChatInvitationPost c5State 10 1 2 true = (.saveRejected, c5State) := by
  rfl

/-- C7 counterexample: connections on channels ch1 and ch2 both belong
to user 7; the presence handler running for the ch2 connection suppresses
the online event originated by the ch1 connection, because presence is
filtered by user id rather than by originating connection. -/
theorem c7_presence_same_user_not_delivered :
    userStatusDeliver 7 { user_id := 7, status := "online" } = none := by
  rfl

/-- C7 amended: a connection never receives its own typing events and a
second connection of the same user does receive them (typing is filtered
by the originating channel); presence events are filtered by user id
instead, so a connection receives a presence event exactly when the event
carries a different user id — two sessions of the same user do not see
each other's presence events. -/
theorem c7_echo_suppression (u : UserId) (ch1 ch2 : ChannelName) (b : Bool)
    (e : StatusEvent) (hne : ch1 ≠ ch2) :
    typingIndicatorDeliver ch1 (handleTyping u ch1 b) = none ∧
    typingIndicatorDeliver ch2 (handleTyping u ch1 b) = some (u, b) ∧
    (e.user_id = u → userStatusDeliver u e = none) ∧
    (e.user_id ≠ u → userStatusDeliver u e = some (e.user_id, e.status)) := by
  refine ⟨?_, ?_, fun h => ?_, fun h => ?_⟩
  · simp [typingIndicatorDeliver, handleTyping]
  · simp [typingIndicatorDeliver, handleTyping, hne]
  · simp [userStatusDeliver, h]
  · simp [userStatusDeliver, h]

/-- C7 witness: concrete instance of the amended statement with two
channels of the same user. -/
theorem c7_echo_suppression_witness :
    typingIndicatorDeliver "a" (handleTyping 7 "a" true) = none ∧
    typingIndicatorDeliver "b" (handleTyping 7 "a" true) = some (7, true) ∧
    ((7 : UserId) = 7 → userStatusDeliver 7 { user_id := 7, status := "offline" } = none) ∧
    ((7 : UserId) ≠ 7 →
      userStatusDeliver 7 { user_id := 7, status := "offline" } = some (7, "offline")) :=
  c7_echo_suppression 7 "a" "b" true { user_id := 7, status := "offline" } (by decide)

/-- C10: the message serializer nulls every encrypted field for a
message of a group room regardless of the stored columns, and for a
direct room serializes the content field as the stored string or the
empty string, never null. -/
theorem c10_serializer_envelope (room : Room) (m : Msg) :
    (room.room_type = .group →
      (serializeMessage room m).encrypted_content = none ∧
      (serializeMessage room m).encrypted_session_key = none ∧
      (serializeMessage room m).self_encrypted_session_key = none) ∧
    (room.room_type = .direct →
      (serializeMessage room m).content = some (m.content.getD "")) := by
  constructor
  · intro h
    simp [serializeMessage, h]
  · intro h
    simp [serializeMessage, h]

/-- C10 witness: the group fixture message serializes with all encrypted
fields null although its stored columns are populated, and under the
direct fixture room the null stored content serializes as the empty
string. -/
theorem c10_serializer_envelope_witness :
    ((serializeMessage c10GroupRoom c10Msg).encrypted_content = none ∧
     (serializeMessage c10GroupRoom c10Msg).encrypted_session_key = none ∧
     (serializeMessage c10GroupRoom c10Msg).self_encrypted_session_key = none) ∧
    (serializeMessage c10DirectRoom c10Msg).content = some "" :=
  ⟨(c10_serializer_envelope c10GroupRoom c10Msg).1 rfl,
   (c10_serializer_envelope c10DirectRoom c10Msg).2 rfl⟩

/-- Fixture for the C6 witness: a device user 9 already owns. -/
def c6PriorDevice : Device :=
  { id := 11, user := 9, device_name := "mac", device_fingerprint := "fpA",
    encrypted_private_key := "keyA", is_primary := true, last_active := 0 }

/-- C6: device registration flags the created device primary exactly
when it is the owner's first device.  The serializer passes no
is_primary (the column defaults to false), so the spec-modelled
first-device save rule is the only mechanism that sets the flag: with no
prior device of the user the created device is primary, with a prior
device it is not. -/
theorem c6_first_device_primary (devices : List Device) (user : UserId)
    (fp nm ky : String) (nextId : DeviceId) (now : Int)
    (hfp : ∀ d ∈ devices, d.device_fingerprint ≠ fp) :
    ((∀ d ∈ devices, d.user ≠ user) →
      ∃ d, deviceRegister devices user fp nm ky nextId now = .ok (d, devices ++ [d]) ∧
        d.is_primary = true ∧ d.user = user) ∧
    ((∃ d ∈ devices, d.user = user) →
      ∃ d, deviceRegister devices user fp nm ky nextId now = .ok (d, devices ++ [d]) ∧
        d.is_primary = false ∧ d.user = user) := by
  have hany : devices.any (fun d => decide (d.device_fingerprint = fp)) = false := by
    rw [List.any_eq_false]
    intro d hd
    simpa using hfp d hd
  constructor
  · intro hnone
    have husr : devices.any (fun e => decide (e.user = user)) = false := by
      rw [List.any_eq_false]
      intro d hd
      simpa using hnone d hd
    let dNew : Device :=
      { id := nextId, user := user, device_name := nm, device_fingerprint := fp,
        encrypted_private_key := ky, is_primary := true, last_active := now }
    refine ⟨dNew, ?_, rfl, rfl⟩
    simp [deviceRegister, userDeviceSave, hany, husr, dNew]
  · intro hsome
    obtain ⟨d0, hd0, hu⟩ := hsome
    have husr : devices.any (fun e => decide (e.user = user)) = true := by
      rw [List.any_eq_true]
      exact ⟨d0, hd0, by simpa using hu⟩
    let dNew : Device :=
      { id := nextId, user := user, device_name := nm, device_fingerprint := fp,
        encrypted_private_key := ky, is_primary := false, last_active := now }
    refine ⟨dNew, ?_, rfl, rfl⟩
    simp [deviceRegister, userDeviceSave, hany, husr, dNew]

/-- C6 witness: registering a fresh fingerprint for user 9, who owns no
device in `c4Devices`-free surroundings, yields a primary device; a
second registration for the same user yields a non-primary one. -/
theorem c6_first_device_primary_witness :
    (∃ d, deviceRegister [] 9 "fpA" "mac" "keyA" 11 0 = .ok (d, [] ++ [d]) ∧
      d.is_primary = true ∧ d.user = 9) ∧
    (∃ d, deviceRegister [c6PriorDevice] 9 "fpB" "pad" "keyB" 12 1 =
      .ok (d, [c6PriorDevice] ++ [d]) ∧ d.is_primary = false ∧ d.user = 9) := by
  constructor
  · exact (c6_first_device_primary [] 9 "fpA" "mac" "keyA" 11 0 (by simp)).1 (by simp)
  · refine (c6_first_device_primary [c6PriorDevice] 9 "fpB" "pad" "keyB" 12 1 ?_).2 ?_
    · intro d hd
      simp [c6PriorDevice] at hd
      rw [hd]
      decide
    · exact ⟨c6PriorDevice, by simp, rfl⟩

/-- C3 counterexample: over the group room of `c3State`, the
live-connection path creates a message from an empty content string with
no encrypted fields; creation does not fail, contradicting the claim that
every group-room message with absent or empty content fails with a
validation error. -/
theorem c3_group_empty_content_created :
    (consumerCreateMessage c3State 20 2 .text "" none none none none 0).isSome = true := by
  rfl

/-- C3 amended: the serializer (with the room in its context) enforces
all three rules — a direct-room message without encrypted content is
rejected, a group-room message with any encrypted field is rejected, and
a group-room message with blank content is rejected.  The live-connection
path enforces the first two rules, but not the group-blank-content rule:
such a message is created, with null content. -/
theorem c3_message_validation (room : Room) (a : MsgAttrs) (s : ChatState)
    (roomId : RoomId) (u : UserId) (mt : MsgType) (content : String)
    (ec esk sesk : Option String) (rid : Option MsgId) (now : Nat) :
    (room.room_type = .direct → strBlank a.encrypted_content = true →
      messageCreateValidate (some room) a = .error .encryptedContentRequired) ∧
    (room.room_type = .group →
      (strBlank a.encrypted_content = false ∨ strBlank a.encrypted_session_key = false ∨
        strBlank a.self_encrypted_session_key = false ∨ strBlank a.content = true) →
      ∃ e, messageCreateValidate (some room) a = .error e) ∧
    (findRoom s roomId = some room → room.room_type = .direct → strBlank ec = true →
      consumerCreateMessage s roomId u .text content ec esk sesk rid now = none) ∧
    (findRoom s roomId = some room → room.room_type = .group →
      (strBlank ec = false ∨ strBlank esk = false ∨ strBlank sesk = false) →
      consumerCreateMessage s roomId u mt content ec esk sesk rid now = none) ∧
    (findRoom s roomId = some room → room.room_type = .group →
      strBlank ec = true → strBlank esk = true → strBlank sesk = true →
      (consumerCreateMessage s roomId u mt "" ec esk sesk none now).isSome = true) := by
  refine ⟨fun h1 h2 => ?_, fun h1 h2 => ?_, fun hf h1 h2 => ?_, fun hf h1 h2 => ?_,
    fun hf h1 hec hesk hsesk => ?_⟩
  · simp [messageCreateValidate, h1, h2]
  · unfold messageCreateValidate
    cases hec : strBlank a.encrypted_content
    · exact ⟨.encryptedContentForbidden, by simp [h1, hec]⟩
    · cases hesk : strBlank a.encrypted_session_key
      · exact ⟨.sessionKeyForbidden, by simp [h1, hec, hesk]⟩
      · cases hsesk : strBlank a.self_encrypted_session_key
        · exact ⟨.selfSessionKeyForbidden, by simp [h1, hec, hesk, hsesk]⟩
        · cases hc : strBlank a.content
          · rcases h2 with h | h | h | h <;> simp_all
          · exact ⟨.contentRequired, by simp [h1, hec, hesk, hsesk, hc]⟩
  · unfold consumerCreateMessage
    rw [hf]
    simp [h1, h2]
  · unfold consumerCreateMessage
    rw [hf]
    cases hec : strBlank ec
    · simp [h1, hec]
    · cases hesk : strBlank esk
      · simp [h1, hec, hesk]
      · cases hsesk : strBlank sesk
        · simp [h1, hec, hesk, hsesk]
        · rcases h2 with h | h | h <;> simp_all
  · unfold consumerCreateMessage
    rw [hf]
    simp [h1, hec, hesk, hsesk]

/-- C3 witness: concrete instances of the amended statement over
`c3State` — the serializer rejections, the live-path rejections, and the
live-path creation of a blank group message. -/
theorem c3_message_validation_witness :
    messageCreateValidate (some { id := 21, room_type := .direct }) c3DirectAttrs =
      .error .encryptedContentRequired ∧
    (∃ e, messageCreateValidate (some { id := 20, room_type := .group }) c3GroupAttrs =
      .error e) ∧
    consumerCreateMessage c3State 21 1 .text "hello" none none none none 0 = none ∧
    consumerCreateMessage c3State 20 2 .text "hi" (some "x") none none none 0 = none ∧
    (consumerCreateMessage c3State 20 2 .text "" none none none none 0).isSome = true := by
  refine ⟨?_, ?_, ?_, ?_, ?_⟩
  · exact (c3_message_validation { id := 21, room_type := .direct } c3DirectAttrs c3State
      21 1 .text "hello" none none none none 0).1 rfl rfl
  · exact (c3_message_validation { id := 20, room_type := .group } c3GroupAttrs c3State
      20 2 .text "hi" (some "x") none none none 0).2.1 rfl (Or.inl rfl)
  · exact (c3_message_validation { id := 21, room_type := .direct } c3DirectAttrs c3State
      21 1 .text "hello" none none none none 0).2.2.1 rfl rfl rfl
  · exact (c3_message_validation { id := 20, room_type := .group } c3GroupAttrs c3State
      20 2 .text "hi" (some "x") none none none 0).2.2.2.1 rfl rfl (Or.inl rfl)
  · exact (c3_message_validation { id := 20, room_type := .group } c3GroupAttrs c3State
      20 2 .text "" none none none none 0).2.2.2.2 rfl rfl rfl rfl rfl

/-- C8 counterexample: on the live-connection path over `c8State`, a
direct-room message with a reply reference to the nonexistent message 99
is created anyway, with reply_to null — the bad reference is silently
dropped rather than rejected. -/
theorem c8_ws_bad_reply_silently_dropped :
    (consumerCreateMessage c8State 30 1 .text "" (some "x") none none (some 99) 0).map
      (fun p => p.1.reply_to) = some none := by
  rfl

/-- C8 amended: the REST serializer create (with the room in its
context) fails with a validation error when reply_to_id does not resolve
to a message of the same room; the live-connection path instead creates
the message with reply_to null. -/
theorem c8_reply_resolution (room : Room) (s : ChatState) (sender : UserId)
    (a : MsgAttrs) (rid : MsgId) (now : Nat) (s2 : ChatState) (roomId : RoomId)
    (u : UserId) (content : String) (ec esk sesk : Option String) :
    (isMember s room.id sender = true → a.reply_to_id = some rid →
      findRoomMessage s room.id rid = none →
      messageCreateSave (some room) s sender a now = .error .replyNotFound) ∧
    (findRoom s2 roomId = some room → room.room_type = .direct → strBlank ec = false →
      findRoomMessage s2 roomId rid = none →
      (consumerCreateMessage s2 roomId u .text content ec esk sesk (some rid) now).map
        (fun p => p.1.reply_to) = some none) := by
  constructor
  · intro hm hr hf
    unfold messageCreateSave
    rw [hr]
    simp [hm, hf]
  · intro hf h1 hec hnone
    unfold consumerCreateMessage
    rw [hf]
    simp [h1, hec, hnone]

/-- C8 witness: concrete instances of the amended statement over
`c8State`: the serializer rejects the unresolved reply while the live
path creates the message with a null reply. -/
theorem c8_reply_resolution_witness :
    messageCreateSave (some { id := 30, room_type := .direct }) c8State 1 c8Attrs 0 =
      .error .replyNotFound ∧
    (consumerCreateMessage c8State 30 1 .text "" (some "x") none none (some 99) 0).map
      (fun p => p.1.reply_to) = some none := by
  constructor
  · exact (c8_reply_resolution { id := 30, room_type := .direct } c8State 1 c8Attrs 99 0
      c8State 30 1 "" (some "x") none none).1 rfl rfl rfl
  · exact (c8_reply_resolution { id := 30, room_type := .direct } c8State 1 c8Attrs 99 0
      c8State 30 1 "" (some "x") none none).2 rfl rfl rfl rfl

/-- C2: when A calls direct-chat-create targeting B, the users are
distinct, no direct room with exactly the two of them exists, and the
pending direct invitations between them were all sent by B (at least one
exists — the at-most-one-pending-per-pair invariant makes the direction
unambiguous), the call auto-accepts inside the transaction: the result is
the created-room (201) outcome, exactly one new direct room is appended,
its memberships are exactly B and A, and exactly one invitation —
a pending one from B to A — is marked accepted and bound to the new
room.  Never two rooms and never zero. -/
theorem c2_direct_create_auto_accept (s : ChatState) (A B : UserRec)
    (hzero : A.id ≠ B.id)
    (hnoroom : existingDirectRoom s A.id B.id = none)
    (hex : ∃ i ∈ s.directInvs, i.status = .pending ∧ i.inviter = B.id ∧ i.invitee = A.id)
    (hall : ∀ i ∈ s.directInvs, i.status = .pending →
      ((i.inviter = A.id ∧ i.invitee = B.id) ∨ (i.inviter = B.id ∧ i.invitee = A.id)) →
      i.inviter = B.id ∧ i.invitee = A.id)
    (hfreshMem : ∀ m ∈ s.members, m.room ≠ s.nextRoomId) :
    (directChatCreate s A B).1 = .accepted { id := s.nextRoomId, room_type := .direct } ∧
    (directChatCreate s A B).2.rooms =
      s.rooms ++ [{ id := s.nextRoomId, room_type := .direct }] ∧
    ((directChatCreate s A B).2.members.filter
      (fun m => decide (m.room = s.nextRoomId))).map RoomMember.user = [B.id, A.id] ∧
    ∃ inv, inv ∈ s.directInvs ∧ inv.status = .pending ∧
      inv.inviter = B.id ∧ inv.invitee = A.id ∧
      (directChatCreate s A B).2.directInvs = s.directInvs.map (fun i =>
        if i.id = inv.id then { i with status := .accepted, room := some s.nextRoomId }
        else i) := by
  obtain ⟨i0, hi0, hp0, hinv0, hie0⟩ := hex
  have hsome : (pendingBetween s A.id B.id).isSome := by
    unfold pendingBetween
    rw [List.find?_isSome]
    exact ⟨i0, hi0, by simp [hp0, hinv0, hie0]⟩
  obtain ⟨inv, hfind⟩ := Option.isSome_iff_exists.mp hsome
  have hfindRaw : s.directInvs.find? (fun i =>
      decide (i.status = .pending ∧
        ((i.inviter = A.id ∧ i.invitee = B.id) ∨
          (i.inviter = B.id ∧ i.invitee = A.id)))) = some inv := hfind
  have hpred := List.find?_some hfindRaw
  simp only [decide_eq_true_eq] at hpred
  have hmem := List.mem_of_find?_eq_some hfindRaw
  obtain ⟨hinvr, hinve⟩ := hall inv hmem hpred.1 hpred.2
  have hne : ¬ (B.id = A.id) := fun h => hzero h.symm
  have hne2 : ¬ (inv.inviter = A.id) := by rw [hinvr]; exact hne
  have hnil : s.members.filter (fun m => decide (m.room = s.nextRoomId)) = [] := by
    rw [List.filter_eq_nil_iff]
    intro m hm
    simpa using hfreshMem m hm
  have hcc : directChatCreate s A B =
      (.accepted { id := s.nextRoomId, room_type := .direct },
        { s with
          rooms := s.rooms ++ [{ id := s.nextRoomId, room_type := RoomType.direct }],
          members := s.members ++
            [{ id := s.nextMemberId, room := s.nextRoomId, user := inv.inviter,
               role := Role.member },
             { id := s.nextMemberId + 1, room := s.nextRoomId, user := inv.invitee,
               role := Role.member }],
          directInvs := s.directInvs.map (fun i =>
            if i.id = inv.id then { i with status := .accepted, room := some s.nextRoomId }
            else i),
          nextRoomId := s.nextRoomId + 1, nextMemberId := s.nextMemberId + 2 }) := by
    unfold directChatCreate
    rw [if_neg hne]
    simp only [hnoroom]
    simp only [hfind]
    rw [if_neg hne2]
    simp only [acceptDirectInvitation]
  refine ⟨?_, ?_, ?_, inv, hmem, hpred.1, hinvr, hinve, ?_⟩
  · rw [hcc]
  · rw [hcc]
  · rw [hcc]
    simp [List.filter_append, hnil, hinvr, hinve]
  · rw [hcc]

/-- C2 witness: on the concrete state with one pending invitation from
user 2 to user 1, user 1 calling direct-chat-create targeting user 2
creates exactly one direct room with the two memberships and accepts the
invitation. -/
theorem c2_direct_create_auto_accept_witness :
    (directChatCreate c2State c2UserA c2UserB).1 =
      .accepted { id := 100, room_type := .direct } ∧
    (directChatCreate c2State c2UserA c2UserB).2.rooms =
      [{ id := 100, room_type := .direct }] ∧
    ((directChatCreate c2State c2UserA c2UserB).2.members.filter
      (fun m => decide (m.room = 100))).map RoomMember.user = [2, 1] ∧
    (∃ inv, inv ∈ c2State.directInvs ∧ inv.status = .pending ∧
      inv.inviter = 2 ∧ inv.invitee = 1 ∧
      (directChatCreate c2State c2UserA c2UserB).2.directInvs =
        c2State.directInvs.map (fun i =>
          if i.id = inv.id then { i with status := .accepted, room := some 100 }
          else i)) := by
  have h := c2_direct_create_auto_accept c2State c2UserA c2UserB (by decide) rfl
    (by decide) (by decide) (by decide)
  exact h

/-- Deleting a room removes it from the room table. -/
theorem findRoom_deleteRoomCascade (s : ChatState) (roomId : RoomId) :
    findRoom (deleteRoomCascade s roomId) roomId = none := by
  simp only [findRoom, deleteRoomCascade]
  rw [List.find?_eq_none]
  intro r hr
  rw [List.mem_filter] at hr
  simpa using hr.2

/-- Deleting a room cascades away all its messages. -/
theorem messages_deleteRoomCascade (s : ChatState) (roomId : RoomId) :
    (deleteRoomCascade s roomId).messages.filter
      (fun m => decide (m.room = roomId)) = [] := by
  simp only [deleteRoomCascade]
  rw [List.filter_eq_nil_iff]
  intro m hm
  rw [List.mem_filter] at hm
  simpa using hm.2

/-- Deleting a room cascades away all its membership rows. -/
theorem members_deleteRoomCascade (s : ChatState) (roomId : RoomId) :
    (deleteRoomCascade s roomId).members.filter
      (fun m => decide (m.room = roomId)) = [] := by
  simp only [deleteRoomCascade]
  rw [List.filter_eq_nil_iff]
  intro m hm
  rw [List.mem_filter] at hm
  simpa using hm.2

/-- After the remove step no membership row of the leaver remains. -/
theorem findMember_removeMembershipStep (s : ChatState) (roomId : RoomId) (u : UserId) :
    findMember (removeMembershipStep s roomId u) roomId u = none := by
  simp only [findMember, removeMembershipStep]
  rw [List.find?_eq_none]
  intro m hm
  rw [List.mem_filter] at hm
  have h2 := hm.2
  simp only [Bool.not_eq_true'] at h2
  simp [h2]

/-- C9: leave-room semantics.  A member leaving a direct room deletes
the room and cascades its messages and memberships (a subsequent room
fetch finds nothing).  A group owner leaving transfers ownership — to the
first other admin if one exists, else to the first other member — and the
promoted member already owns the room in the intermediate state produced
before the owner's membership row is removed; the room itself persists.
With no other member, the room is deleted. -/
theorem c9_leave_room (s : ChatState) (roomId : RoomId) (u : UserId)
    (room : Room) (member : RoomMember)
    (hroom : findRoom s roomId = some room)
    (hmem : findMember s roomId u = some member) :
    (room.room_type = .direct →
      (chatRoomLeave s roomId u).1 = .roomDeleted ∧
      findRoom (chatRoomLeave s roomId u).2 roomId = none ∧
      (chatRoomLeave s roomId u).2.messages.filter
        (fun m => decide (m.room = roomId)) = [] ∧
      (chatRoomLeave s roomId u).2.members.filter
        (fun m => decide (m.room = roomId)) = []) ∧
    (room.room_type = .group → member.role = .owner →
      (∀ am, s.members.find? (fun m =>
          decide (m.room = roomId ∧ m.role = .admin ∧ m.user ≠ u)) = some am →
        am.room = roomId ∧ am.user ≠ u ∧
        ∃ s2, ownerTransferStep s roomId u = some s2 ∧
          { am with role := Role.owner } ∈ s2.members ∧
          chatRoomLeave s roomId u = (.leftRoom, removeMembershipStep s2 roomId u) ∧
          { am with role := Role.owner } ∈ (chatRoomLeave s roomId u).2.members ∧
          findMember (chatRoomLeave s roomId u).2 roomId u = none ∧
          (chatRoomLeave s roomId u).2.rooms = s.rooms) ∧
      (s.members.find? (fun m =>
          decide (m.room = roomId ∧ m.role = .admin ∧ m.user ≠ u)) = none →
        ∀ rm, s.members.find? (fun m =>
            decide (m.room = roomId ∧ m.user ≠ u)) = some rm →
        rm.room = roomId ∧ rm.user ≠ u ∧
        ∃ s2, ownerTransferStep s roomId u = some s2 ∧
          { rm with role := Role.owner } ∈ s2.members ∧
          chatRoomLeave s roomId u = (.leftRoom, removeMembershipStep s2 roomId u) ∧
          { rm with role := Role.owner } ∈ (chatRoomLeave s roomId u).2.members ∧
          findMember (chatRoomLeave s roomId u).2 roomId u = none ∧
          (chatRoomLeave s roomId u).2.rooms = s.rooms) ∧
      (s.members.find? (fun m =>
          decide (m.room = roomId ∧ m.role = .admin ∧ m.user ≠ u)) = none →
        s.members.find? (fun m => decide (m.room = roomId ∧ m.user ≠ u)) = none →
        (chatRoomLeave s roomId u).1 = .lastMemberDeleted ∧
        findRoom (chatRoomLeave s roomId u).2 roomId = none)) := by
  constructor
  · intro hdir
    have hleave : chatRoomLeave s roomId u = (.roomDeleted, deleteRoomCascade s roomId) := by
      unfold chatRoomLeave
      simp only [hroom, hmem]
      rw [if_pos hdir]
    refine ⟨by rw [hleave], ?_, ?_, ?_⟩
    · rw [hleave]
      exact findRoom_deleteRoomCascade s roomId
    · rw [hleave]
      exact messages_deleteRoomCascade s roomId
    · rw [hleave]
      exact members_deleteRoomCascade s roomId
  · intro hgrp howner
    have hnd : ¬ (room.room_type = RoomType.direct) := by
      rw [hgrp]
      exact fun h => RoomType.noConfusion h
    refine ⟨?_, ?_, ?_⟩
    · intro am hadm
      have hamP := List.find?_some hadm
      simp only [decide_eq_true_eq] at hamP
      obtain ⟨hamRoom, hamRole, hamUser⟩ := hamP
      have hamMem := List.mem_of_find?_eq_some hadm
      have hstep : ownerTransferStep s roomId u =
          some { s with members := s.members.map (fun m =>
            if m.id = am.id then { m with role := Role.owner } else m) } := by
        unfold ownerTransferStep
        simp only [hadm]
      have hleave : chatRoomLeave s roomId u =
          (.leftRoom, removeMembershipStep { s with members := s.members.map (fun m =>
            if m.id = am.id then { m with role := Role.owner } else m) } roomId u) := by
        unfold chatRoomLeave
        simp only [hroom, hmem]
        rw [if_neg hnd, if_pos howner]
        simp only [hstep]
      refine ⟨hamRoom, hamUser, _, hstep, ?_, hleave, ?_, ?_, ?_⟩
      · exact List.mem_map.mpr ⟨am, hamMem, by simp⟩
      · rw [hleave]
        exact List.mem_filter.mpr
          ⟨List.mem_map.mpr ⟨am, hamMem, by simp⟩, by simp [hamUser]⟩
      · rw [hleave]
        exact findMember_removeMembershipStep _ roomId u
      · rw [hleave]
        rfl
    · intro hadmNone rm hreg
      have hrmP := List.find?_some hreg
      simp only [decide_eq_true_eq] at hrmP
      obtain ⟨hrmRoom, hrmUser⟩ := hrmP
      have hrmMem := List.mem_of_find?_eq_some hreg
      have hstep : ownerTransferStep s roomId u =
          some { s with members := s.members.map (fun m =>
            if m.id = rm.id then { m with role := Role.owner } else m) } := by
        unfold ownerTransferStep
        simp only [hadmNone, hreg]
      have hleave : chatRoomLeave s roomId u =
          (.leftRoom, removeMembershipStep { s with members := s.members.map (fun m =>
            if m.id = rm.id then { m with role := Role.owner } else m) } roomId u) := by
        unfold chatRoomLeave
        simp only [hroom, hmem]
        rw [if_neg hnd, if_pos howner]
        simp only [hstep]
      refine ⟨hrmRoom, hrmUser, _, hstep, ?_, hleave, ?_, ?_, ?_⟩
      · exact List.mem_map.mpr ⟨rm, hrmMem, by simp⟩
      · rw [hleave]
        exact List.mem_filter.mpr
          ⟨List.mem_map.mpr ⟨rm, hrmMem, by simp⟩, by simp [hrmUser]⟩
      · rw [hleave]
        exact findMember_removeMembershipStep _ roomId u
      · rw [hleave]
        rfl
    · intro hadmNone hregNone
      have hstep : ownerTransferStep s roomId u = none := by
        unfold ownerTransferStep
        simp only [hadmNone, hregNone]
      have hleave : chatRoomLeave s roomId u =
          (.lastMemberDeleted, deleteRoomCascade s roomId) := by
        unfold chatRoomLeave
        simp only [hroom, hmem]
        rw [if_neg hnd, if_pos howner]
        simp only [hstep]
      refine ⟨by rw [hleave], ?_⟩
      rw [hleave]
      exact findRoom_deleteRoomCascade s roomId

/-- C9 witness: concrete evaluations on `c9State` — leaving the direct
room deletes it with its messages and memberships; the owner leaving
group 61 promotes the admin (membership row 4) before removal and the
room persists; the owner leaving group 62 promotes the ordinary member
(row 7); the sole owner leaving group 63 deletes the room. -/
theorem c9_leave_room_witness :
    ((chatRoomLeave c9State 60 1).1 = .roomDeleted ∧
     findRoom (chatRoomLeave c9State 60 1).2 60 = none ∧
     (chatRoomLeave c9State 60 1).2.messages.filter
       (fun m => decide (m.room = 60)) = [] ∧
     (chatRoomLeave c9State 60 1).2.members.filter
       (fun m => decide (m.room = 60)) = []) ∧
    ((61 : Nat) = 61 ∧ (2 : Nat) ≠ 1 ∧
     ∃ s2, ownerTransferStep c9State 61 1 = some s2 ∧
      ({ id := 4, room := 61, user := 2, role := Role.owner } : RoomMember) ∈ s2.members ∧
      chatRoomLeave c9State 61 1 = (.leftRoom, removeMembershipStep s2 61 1) ∧
      ({ id := 4, room := 61, user := 2, role := Role.owner } : RoomMember) ∈
        (chatRoomLeave c9State 61 1).2.members ∧
      findMember (chatRoomLeave c9State 61 1).2 61 1 = none ∧
      (chatRoomLeave c9State 61 1).2.rooms = c9State.rooms) ∧
    ((62 : Nat) = 62 ∧ (3 : Nat) ≠ 1 ∧
     ∃ s2, ownerTransferStep c9State 62 1 = some s2 ∧
      ({ id := 7, room := 62, user := 3, role := Role.owner } : RoomMember) ∈ s2.members ∧
      chatRoomLeave c9State 62 1 = (.leftRoom, removeMembershipStep s2 62 1) ∧
      ({ id := 7, room := 62, user := 3, role := Role.owner } : RoomMember) ∈
        (chatRoomLeave c9State 62 1).2.members ∧
      findMember (chatRoomLeave c9State 62 1).2 62 1 = none ∧
      (chatRoomLeave c9State 62 1).2.rooms = c9State.rooms) ∧
    ((chatRoomLeave c9State 63 1).1 = .lastMemberDeleted ∧
     findRoom (chatRoomLeave c9State 63 1).2 63 = none) := by
  refine ⟨?_, ?_, ?_, ?_⟩
  · exact (c9_leave_room c9State 60 1 _ _ rfl rfl).1 rfl
  · exact ((c9_leave_room c9State 61 1 _ _ rfl rfl).2 rfl rfl).1 _ rfl
  · exact ((c9_leave_room c9State 62 1 _ _ rfl rfl).2 rfl rfl).2.1 rfl _ rfl
  · exact ((c9_leave_room c9State 63 1 _ _ rfl rfl).2 rfl rfl).2.2 rfl rfl

end WhisperApi
